import Mathlib

/-!
Shallow embedding of `src/frontend/src/utils/localStorage.ts`
(`TypedLocalStorage`, `ZodLocalStorage`) and of `derefNotNull` from the
second source file, together with proofs of their specification claims.

Modelling conventions:
* A thrown JavaScript exception is an `Except JsError` error value; a
  `try { body } catch { handler }` block is a `match` on the body's result.
* `window.localStorage` is explicit state: a partial map from string keys
  to string values.  `getItem` may fail (storage access error) and
  `setItem` may fail (quota exceeded); these failure modes are recorded in
  the state as optional pending errors, so that theorems can quantify over
  storages whose primitive reads or writes throw.  Every primitive returns
  the post-state so that frame properties are expressible.
* `JSON.parse` (for `TypedLocalStorage`, its result is cast to `T` with no
  check, so the parse function produces `T` directly; for
  `ZodLocalStorage` it produces an untyped value `U`), `JSON.stringify`,
  and `schema.parse` are external collaborators, taken as parameters /
  fields: arbitrary functions that either return a value or throw.
* The impure zero-argument producer `getDefaultValue : () => T` is
  modelled as a function of the number of times it has been invoked so
  far; stateful code threads this invocation counter.  This lets theorems
  distinguish "invoked freshly on this call" from "a cached value".
* JavaScript truthiness of `item : string | null` in `item ? a : b`:
  both `null` and the empty string are falsy.
-/

/-- A JavaScript exception value: its constructor name and message. -/
structure JsError where
  name : String
  message : String
deriving DecidableEq, Repr

/-- The `window.localStorage` state: the key-value data, plus the pending
failure modes of its primitive operations (`readError`: `getItem` throws,
e.g. storage access denied; `writeError`: `setItem` throws, e.g. quota
exceeded). -/
structure LocalStorage where
  data : String → Option String
  readError : Option JsError
  writeError : Option JsError

/-- `window.localStorage.getItem(k)`: returns the stored string or `null`
(`none`); throws if the storage read fails.  Never mutates the state. -/
def LocalStorage.getItem (st : LocalStorage) (k : String) :
    Except JsError (Option String) × LocalStorage :=
  match st.readError with
  | some e => (Except.error e, st)
  | none => (Except.ok (st.data k), st)

/-- `window.localStorage.setItem(k, v)`: stores `v` under `k`, overwriting
any prior value; throws (leaving the data unchanged) if the write fails. -/
def LocalStorage.setItem (st : LocalStorage) (k v : String) :
    Except JsError Unit × LocalStorage :=
  match st.writeError with
  | some e => (Except.error e, st)
  | none =>
    (Except.ok (),
     { st with data := fun q => if q = k then some v else st.data q })

/-- `window.localStorage.removeItem(k)`: deletes the entry under `k` if
present; a no-op if absent.  Does not throw. -/
def LocalStorage.removeItem (st : LocalStorage) (k : String) :
    Except JsError Unit × LocalStorage :=
  (Except.ok (),
   { st with data := fun q => if q = k then none else st.data q })

/-- `class TypedLocalStorage<T>`: constructor fields `key` and
`defaultValue`. -/
structure TypedLocalStorage (T : Type) where
  key : String
  defaultValue : T

/-- The `try`-block body of `TypedLocalStorage.get`:
`const item = window.localStorage.getItem(this.key);
 return item ? (JSON.parse(item) as T) : this.defaultValue;`.
`jsonParse` is `JSON.parse` composed with the unchecked cast `as T`. -/
def TypedLocalStorage.tryBody {T : Type} (self : TypedLocalStorage T)
    (jsonParse : String → Except JsError T) (st : LocalStorage) :
    Except JsError T × LocalStorage :=
  match st.getItem self.key with
  | (Except.error e, st1) => (Except.error e, st1)
  | (Except.ok none, st1) => (Except.ok self.defaultValue, st1)
  | (Except.ok (some s), st1) =>
    if s = "" then (Except.ok self.defaultValue, st1) else (jsonParse s, st1)

/-- `TypedLocalStorage.get`: the `try`-body wrapped in
`catch { return this.defaultValue; }`. -/
def TypedLocalStorage.get {T : Type} (self : TypedLocalStorage T)
    (jsonParse : String → Except JsError T) (st : LocalStorage) :
    T × LocalStorage :=
  match self.tryBody jsonParse st with
  | (Except.ok v, st1) => (v, st1)
  | (Except.error _, st1) => (self.defaultValue, st1)

/-- `TypedLocalStorage.set`:
`window.localStorage.setItem(this.key, JSON.stringify(value));` — no
`try`/`catch`, so a write failure propagates. -/
def TypedLocalStorage.set {T : Type} (self : TypedLocalStorage T)
    (jsonStringify : T → String) (value : T) (st : LocalStorage) :
    Except JsError Unit × LocalStorage :=
  st.setItem self.key (jsonStringify value)

/-- `class ZodLocalStorage<T>`: constructor fields `key`, `schema` and
`getDefaultValue`.  `schemaParse` is `this.schema.parse`, taking the
untyped (`unknown`) result `U` of `JSON.parse` to a `T` or throwing a
validation error.  `getDefaultValue` is the impure producer, indexed by
its invocation count. -/
structure ZodLocalStorage (U T : Type) where
  key : String
  schemaParse : U → Except JsError T
  getDefaultValue : Nat → T

/-- The `try`-block body of `ZodLocalStorage.get`:
`const item = window.localStorage.getItem(this.key);
 return item ? this.schema.parse(JSON.parse(item)) : this.getDefaultValue();`.
Returns the result, the post-storage, and the updated producer-invocation
count. -/
def ZodLocalStorage.tryBody {U T : Type} (self : ZodLocalStorage U T)
    (jsonParse : String → Except JsError U) (st : LocalStorage)
    (calls : Nat) : Except JsError T × LocalStorage × Nat :=
  match st.getItem self.key with
  | (Except.error e, st1) => (Except.error e, st1, calls)
  | (Except.ok none, st1) =>
    (Except.ok (self.getDefaultValue calls), st1, calls + 1)
  | (Except.ok (some s), st1) =>
    if s = "" then (Except.ok (self.getDefaultValue calls), st1, calls + 1)
    else
      match jsonParse s with
      | Except.error e => (Except.error e, st1, calls)
      | Except.ok u =>
        match self.schemaParse u with
        | Except.error e => (Except.error e, st1, calls)
        | Except.ok v => (Except.ok v, st1, calls)

/-- `ZodLocalStorage.get`: the `try`-body wrapped in
`catch { return this.getDefaultValue(); }` (one fresh producer invocation
on the catch path). -/
def ZodLocalStorage.get {U T : Type} (self : ZodLocalStorage U T)
    (jsonParse : String → Except JsError U) (st : LocalStorage)
    (calls : Nat) : T × LocalStorage × Nat :=
  match self.tryBody jsonParse st calls with
  | (Except.ok v, st1, c1) => (v, st1, c1)
  | (Except.error _, st1, c1) => (self.getDefaultValue c1, st1, c1 + 1)

/-- `ZodLocalStorage.set`:
`window.localStorage.setItem(this.key, JSON.stringify(value));`. -/
def ZodLocalStorage.set {U T : Type} (self : ZodLocalStorage U T)
    (jsonStringify : T → String) (value : T) (st : LocalStorage) :
    Except JsError Unit × LocalStorage :=
  st.setItem self.key (jsonStringify value)

/-- `ZodLocalStorage.remove`:
`window.localStorage.removeItem(this.key);`. -/
def ZodLocalStorage.remove {U T : Type} (self : ZodLocalStorage U T)
    (st : LocalStorage) : Except JsError Unit × LocalStorage :=
  st.removeItem self.key

/-- `React.RefObject<T | null>`: a mutable cell whose `current` field
holds either a value or the absence marker `null` (`none`). -/
structure RefObject (T : Type) where
  current : Option T
deriving DecidableEq, Repr

/-- `derefNotNull(ref)`: reads `ref.current`; throws
`ReferenceError("Attempting to dereference null object.")` if it is
`null`, otherwise returns it.  Returns the post-state of the cell as
well, so that absence of mutation is a theorem rather than a
convention. -/
def derefNotNull {T : Type} (ref : RefObject T) :
    Except JsError T × RefObject T :=
  match ref.current with
  | none =>
    (Except.error ⟨"ReferenceError", "Attempting to dereference null object."⟩,
     ref)
  | some v => (Except.ok v, ref)

/-! ### Concrete fixtures

Closed instances of the model, used to evaluate the theorems on concrete
inputs. -/

/-- An empty storage with no pending errors. -/
def emptyStorage : LocalStorage := ⟨fun _ => none, none, none⟩

/-- A storage holding exactly the entry `k ↦ v`, with no pending errors. -/
def singletonStorage (k v : String) : LocalStorage :=
  ⟨fun q => if q = k then some v else none, none, none⟩

/-- A storage whose primitive reads throw `e`. -/
def readFailStorage (e : JsError) : LocalStorage :=
  ⟨fun _ => none, some e, none⟩

/-- A storage whose primitive writes throw `e`. -/
def writeFailStorage (e : JsError) : LocalStorage :=
  ⟨fun _ => none, none, some e⟩

/-- The error `JSON.parse` throws on malformed text. -/
def parseErr : JsError := ⟨"SyntaxError", "Unexpected token"⟩

/-- A schema-validation error. -/
def zodErr : JsError := ⟨"ZodError", "invalid input"⟩

/-- A storage-quota error thrown by a failing write. -/
def quotaErr : JsError := ⟨"QuotaExceededError", "quota exceeded"⟩

/-- Fixture `JSON.stringify` for `T = Nat`. -/
def natToJson (n : Nat) : String := toString n

/-- Fixture `JSON.parse` (plus the unchecked cast) for `T = Nat`: it
recognizes the two numerals the concrete instances use and throws on any
other text (as `JSON.parse` does on malformed input). -/
def natFromJson (s : String) : Except JsError Nat :=
  if s = "7" then Except.ok 7
  else if s = "42" then Except.ok 42
  else Except.error parseErr

/-- Fixture schema: accepts numbers below `10`, rejects the rest. -/
def smallNatSchema (n : Nat) : Except JsError Nat :=
  if n < 10 then Except.ok n else Except.error zodErr

/-- Fixture typed store at key `"k"` with default `0`. -/
def tStore : TypedLocalStorage Nat := ⟨"k", 0⟩

/-- Fixture validated store at key `"k"`; its default producer returns
`100 + i` on its `i`-th invocation, so distinct invocations are
observable. -/
def zStore : ZodLocalStorage Nat Nat := ⟨"k", smallNatSchema, fun i => 100 + i⟩

/-! ### Path characterization lemmas

One lemma per execution path of each `get`; the claim theorems below are
assembled from these. -/

theorem typed_get_read_error {T : Type} (self : TypedLocalStorage T)
    (jp : String → Except JsError T) (st : LocalStorage) (e : JsError)
    (hre : st.readError = some e) :
    self.get jp st = (self.defaultValue, st) := by
  simp [TypedLocalStorage.get, TypedLocalStorage.tryBody,
    LocalStorage.getItem, hre]

theorem typed_get_absent {T : Type} (self : TypedLocalStorage T)
    (jp : String → Except JsError T) (st : LocalStorage)
    (hre : st.readError = none) (hd : st.data self.key = none) :
    self.get jp st = (self.defaultValue, st) := by
  simp [TypedLocalStorage.get, TypedLocalStorage.tryBody,
    LocalStorage.getItem, hre, hd]

theorem typed_get_empty {T : Type} (self : TypedLocalStorage T)
    (jp : String → Except JsError T) (st : LocalStorage)
    (hre : st.readError = none) (hd : st.data self.key = some "") :
    self.get jp st = (self.defaultValue, st) := by
  simp [TypedLocalStorage.get, TypedLocalStorage.tryBody,
    LocalStorage.getItem, hre, hd]

theorem typed_get_parse_error {T : Type} (self : TypedLocalStorage T)
    (jp : String → Except JsError T) (st : LocalStorage) (s : String)
    (e : JsError) (hre : st.readError = none)
    (hd : st.data self.key = some s) (hs : s ≠ "")
    (hp : jp s = Except.error e) :
    self.get jp st = (self.defaultValue, st) := by
  simp [TypedLocalStorage.get, TypedLocalStorage.tryBody,
    LocalStorage.getItem, hre, hd, hs, hp]

theorem typed_get_parse_ok {T : Type} (self : TypedLocalStorage T)
    (jp : String → Except JsError T) (st : LocalStorage) (s : String)
    (v : T) (hre : st.readError = none) (hd : st.data self.key = some s)
    (hs : s ≠ "") (hp : jp s = Except.ok v) :
    self.get jp st = (v, st) := by
  simp [TypedLocalStorage.get, TypedLocalStorage.tryBody,
    LocalStorage.getItem, hre, hd, hs, hp]

theorem zod_get_read_error {U T : Type} (self : ZodLocalStorage U T)
    (jpU : String → Except JsError U) (st : LocalStorage) (calls : Nat)
    (e : JsError) (hre : st.readError = some e) :
    self.get jpU st calls = (self.getDefaultValue calls, st, calls + 1) := by
  simp [ZodLocalStorage.get, ZodLocalStorage.tryBody,
    LocalStorage.getItem, hre]

theorem zod_get_absent {U T : Type} (self : ZodLocalStorage U T)
    (jpU : String → Except JsError U) (st : LocalStorage) (calls : Nat)
    (hre : st.readError = none) (hd : st.data self.key = none) :
    self.get jpU st calls = (self.getDefaultValue calls, st, calls + 1) := by
  simp [ZodLocalStorage.get, ZodLocalStorage.tryBody,
    LocalStorage.getItem, hre, hd]

theorem zod_get_empty {U T : Type} (self : ZodLocalStorage U T)
    (jpU : String → Except JsError U) (st : LocalStorage) (calls : Nat)
    (hre : st.readError = none) (hd : st.data self.key = some "") :
    self.get jpU st calls = (self.getDefaultValue calls, st, calls + 1) := by
  simp [ZodLocalStorage.get, ZodLocalStorage.tryBody,
    LocalStorage.getItem, hre, hd]

theorem zod_get_parse_error {U T : Type} (self : ZodLocalStorage U T)
    (jpU : String → Except JsError U) (st : LocalStorage) (calls : Nat)
    (s : String) (e : JsError) (hre : st.readError = none)
    (hd : st.data self.key = some s) (hs : s ≠ "")
    (hp : jpU s = Except.error e) :
    self.get jpU st calls = (self.getDefaultValue calls, st, calls + 1) := by
  simp [ZodLocalStorage.get, ZodLocalStorage.tryBody,
    LocalStorage.getItem, hre, hd, hs, hp]

theorem zod_get_schema_error {U T : Type} (self : ZodLocalStorage U T)
    (jpU : String → Except JsError U) (st : LocalStorage) (calls : Nat)
    (s : String) (u : U) (e : JsError) (hre : st.readError = none)
    (hd : st.data self.key = some s) (hs : s ≠ "")
    (hp : jpU s = Except.ok u) (hv : self.schemaParse u = Except.error e) :
    self.get jpU st calls = (self.getDefaultValue calls, st, calls + 1) := by
  simp [ZodLocalStorage.get, ZodLocalStorage.tryBody,
    LocalStorage.getItem, hre, hd, hs, hp, hv]

theorem zod_get_schema_ok {U T : Type} (self : ZodLocalStorage U T)
    (jpU : String → Except JsError U) (st : LocalStorage) (calls : Nat)
    (s : String) (u : U) (v : T) (hre : st.readError = none)
    (hd : st.data self.key = some s) (hs : s ≠ "")
    (hp : jpU s = Except.ok u) (hv : self.schemaParse u = Except.ok v) :
    self.get jpU st calls = (v, st, calls) := by
  simp [ZodLocalStorage.get, ZodLocalStorage.tryBody,
    LocalStorage.getItem, hre, hd, hs, hp, hv]

/-- C4: `derefNotNull` applied to a cell currently holding the absence
marker (`null`) throws a `ReferenceError` whose message is exactly
"Attempting to dereference null object.", leaving the cell unchanged. -/
theorem derefNotNull_throws_on_null (T : Type) :
    derefNotNull (RefObject.mk (none : Option T)) =
      (Except.error
        ⟨"ReferenceError", "Attempting to dereference null object."⟩,
       RefObject.mk none) := rfl

/-- C5: for every non-null value `x`, `derefNotNull` applied to a cell
currently holding `x` returns `x` unchanged, and the cell after the call
is exactly the cell before: no side effect. -/
theorem derefNotNull_returns_value {T : Type} (x : T) :
    derefNotNull (RefObject.mk (some x)) =
      (Except.ok x, RefObject.mk (some x)) := rfl

/-- C9: `get()` on a Typed Store or a Validated Store never mutates the
key-value store: the storage state after the call is exactly the storage
state before it, for every storage state, key, parser, schema, default
and invocation count; in particular the default is never written back. -/
theorem get_preserves_storage {U T : Type} (selfT : TypedLocalStorage T)
    (selfZ : ZodLocalStorage U T) (jp : String → Except JsError T)
    (jpU : String → Except JsError U) (st : LocalStorage) (calls : Nat) :
    (selfT.get jp st).2 = st ∧ (selfZ.get jpU st calls).2.1 = st := by
  constructor
  · cases hre : st.readError with
    | some e => rw [typed_get_read_error selfT jp st e hre]
    | none =>
      cases hd : st.data selfT.key with
      | none => rw [typed_get_absent selfT jp st hre hd]
      | some s =>
        by_cases hs : s = ""
        · subst hs
          rw [typed_get_empty selfT jp st hre hd]
        · cases hp : jp s with
          | error e => rw [typed_get_parse_error selfT jp st s e hre hd hs hp]
          | ok v => rw [typed_get_parse_ok selfT jp st s v hre hd hs hp]
  · cases hre : st.readError with
    | some e => rw [zod_get_read_error selfZ jpU st calls e hre]
    | none =>
      cases hd : st.data selfZ.key with
      | none => rw [zod_get_absent selfZ jpU st calls hre hd]
      | some s =>
        by_cases hs : s = ""
        · subst hs
          rw [zod_get_empty selfZ jpU st calls hre hd]
        · cases hp : jpU s with
          | error e =>
            rw [zod_get_parse_error selfZ jpU st calls s e hre hd hs hp]
          | ok u =>
            cases hv : selfZ.schemaParse u with
            | error e =>
              rw [zod_get_schema_error selfZ jpU st calls s u e hre hd hs hp hv]
            | ok v =>
              rw [zod_get_schema_ok selfZ jpU st calls s u v hre hd hs hp hv]

/-- C1: `get()` on a Typed or Validated Store never raises: on every
failure path — storage read error, missing key, malformed JSON (parse
throws), and, for the validated variant, schema validation failure — it
returns the configured default (for the validated variant, the freshly
produced default) instead of propagating the error. -/
theorem get_never_raises {U T : Type} (selfT : TypedLocalStorage T)
    (selfZ : ZodLocalStorage U T) (jp : String → Except JsError T)
    (jpU : String → Except JsError U) (st : LocalStorage) (calls : Nat) :
    (∀ e, st.readError = some e →
      (selfT.get jp st).1 = selfT.defaultValue)
    ∧ (st.readError = none → st.data selfT.key = none →
      (selfT.get jp st).1 = selfT.defaultValue)
    ∧ (∀ s e, st.readError = none → st.data selfT.key = some s → s ≠ "" →
      jp s = Except.error e → (selfT.get jp st).1 = selfT.defaultValue)
    ∧ (∀ e, st.readError = some e →
      (selfZ.get jpU st calls).1 = selfZ.getDefaultValue calls)
    ∧ (st.readError = none → st.data selfZ.key = none →
      (selfZ.get jpU st calls).1 = selfZ.getDefaultValue calls)
    ∧ (∀ s e, st.readError = none → st.data selfZ.key = some s → s ≠ "" →
      jpU s = Except.error e →
      (selfZ.get jpU st calls).1 = selfZ.getDefaultValue calls)
    ∧ (∀ s u e, st.readError = none → st.data selfZ.key = some s → s ≠ "" →
      jpU s = Except.ok u → selfZ.schemaParse u = Except.error e →
      (selfZ.get jpU st calls).1 = selfZ.getDefaultValue calls) := by
  refine ⟨?_, ?_, ?_, ?_, ?_, ?_, ?_⟩
  · intro e hre
    rw [typed_get_read_error selfT jp st e hre]
  · intro hre hd
    rw [typed_get_absent selfT jp st hre hd]
  · intro s e hre hd hs hp
    rw [typed_get_parse_error selfT jp st s e hre hd hs hp]
  · intro e hre
    rw [zod_get_read_error selfZ jpU st calls e hre]
  · intro hre hd
    rw [zod_get_absent selfZ jpU st calls hre hd]
  · intro s e hre hd hs hp
    rw [zod_get_parse_error selfZ jpU st calls s e hre hd hs hp]
  · intro s u e hre hd hs hp hv
    rw [zod_get_schema_error selfZ jpU st calls s u e hre hd hs hp hv]

/-- Witness for C1: concrete malformed text on the typed store and a
schema-rejected value on the validated store both produce the default. -/
theorem get_never_raises_witness :
    (tStore.get natFromJson (singletonStorage "k" "oops")).1 = 0
    ∧ (zStore.get natFromJson (singletonStorage "k" "42") 0).1 = 100 := by
  refine ⟨?_, ?_⟩
  · exact (get_never_raises tStore zStore natFromJson natFromJson
      (singletonStorage "k" "oops") 0).2.2.1 "oops" parseErr rfl
      (by decide) (by decide) rfl
  · exact (get_never_raises tStore zStore natFromJson natFromJson
      (singletonStorage "k" "42") 0).2.2.2.2.2.2 "42" 42 zodErr rfl
      (by decide) (by decide) rfl rfl

/-- C2: on a Typed Store, `set(v)` followed by `get()` returns `v`,
provided the storage read and write succeed and JSON round-tripping
preserves `v` (`jp (js v) = ok v`; in particular `JSON.stringify` of a
JSON-representable value is never the empty string). -/
theorem typed_set_get_roundtrip {T : Type} (self : TypedLocalStorage T)
    (jp : String → Except JsError T) (js : T → String) (v : T)
    (st : LocalStorage) (hw : st.writeError = none)
    (hr : st.readError = none) (hnz : js v ≠ "")
    (hrt : jp (js v) = Except.ok v) :
    (self.set js v st).1 = Except.ok ()
    ∧ (self.get jp (self.set js v st).2).1 = v := by
  have hset : self.set js v st =
      (Except.ok (),
       { st with
          data := fun q => if q = self.key then some (js v) else st.data q }) := by
    simp [TypedLocalStorage.set, LocalStorage.setItem, hw]
  refine ⟨by rw [hset], ?_⟩
  have hget := typed_get_parse_ok self jp
    { st with
       data := fun q => if q = self.key then some (js v) else st.data q }
    (js v) v hr (by simp) hnz hrt
  rw [hset, hget]

/-- Witness for C2: storing `7` in an empty storage and reading it back
yields `7`. -/
theorem typed_set_get_roundtrip_witness :
    (tStore.set natToJson 7 emptyStorage).1 = Except.ok ()
    ∧ (tStore.get natFromJson (tStore.set natToJson 7 emptyStorage).2).1 = 7 :=
  typed_set_get_roundtrip tStore natFromJson natToJson 7 emptyStorage rfl rfl
    (by decide) rfl

/-- C3: on a Validated Store, when the stored text parses as JSON but
fails schema validation, `get()` does not throw: it returns the default
obtained by invoking the producer freshly on that call (at the current
invocation index, bumping the counter), and a subsequent call invokes the
producer again at the next index rather than reusing a cached value. -/
theorem zod_schema_failure_returns_fresh_default {U T : Type}
    (self : ZodLocalStorage U T) (jpU : String → Except JsError U)
    (st : LocalStorage) (calls : Nat) (s : String) (u : U) (e : JsError)
    (hre : st.readError = none) (hd : st.data self.key = some s)
    (hs : s ≠ "") (hp : jpU s = Except.ok u)
    (hv : self.schemaParse u = Except.error e) :
    self.get jpU st calls = (self.getDefaultValue calls, st, calls + 1)
    ∧ (self.get jpU st (calls + 1)).1 = self.getDefaultValue (calls + 1) := by
  constructor
  · exact zod_get_schema_error self jpU st calls s u e hre hd hs hp hv
  · rw [zod_get_schema_error self jpU st (calls + 1) s u e hre hd hs hp hv]

/-- Witness for C3: `"42"` parses but is rejected by the schema; the
first call returns the producer's value at index `0` and the next call
the (different) value at index `1`. -/
theorem zod_schema_failure_returns_fresh_default_witness :
    zStore.get natFromJson (singletonStorage "k" "42") 0 =
      (100, singletonStorage "k" "42", 1)
    ∧ (zStore.get natFromJson (singletonStorage "k" "42") 1).1 = 101 :=
  zod_schema_failure_returns_fresh_default zStore natFromJson
    (singletonStorage "k" "42") 0 "42" 42 zodErr rfl (by decide) (by decide)
    rfl rfl

/-- C6: `set()` on a Typed or Validated Store does not catch storage
write failures: when the underlying write throws `e`, `set` propagates
exactly `e` to its caller and the storage is unchanged. -/
theorem set_propagates_write_failure {U T : Type}
    (selfT : TypedLocalStorage T) (selfZ : ZodLocalStorage U T)
    (jsT jsZ : T → String) (v : T) (st : LocalStorage) (e : JsError)
    (hw : st.writeError = some e) :
    selfT.set jsT v st = (Except.error e, st)
    ∧ selfZ.set jsZ v st = (Except.error e, st) := by
  constructor
  · simp [TypedLocalStorage.set, LocalStorage.setItem, hw]
  · simp [ZodLocalStorage.set, LocalStorage.setItem, hw]

/-- Witness for C6: a quota-failing write propagates the quota error from
both stores. -/
theorem set_propagates_write_failure_witness :
    tStore.set natToJson 7 (writeFailStorage quotaErr) =
      (Except.error quotaErr, writeFailStorage quotaErr)
    ∧ zStore.set natToJson 7 (writeFailStorage quotaErr) =
      (Except.error quotaErr, writeFailStorage quotaErr) :=
  set_propagates_write_failure tStore zStore natToJson natToJson 7
    (writeFailStorage quotaErr) quotaErr rfl

/-- C7: `remove()` on a Validated Store does not throw, deletes the entry
at the configured key if present, leaves every other key untouched, is a
no-op on the data when the key is absent, and `remove()` followed by
`get()` returns the freshly computed default. -/
theorem zod_remove_then_get {U T : Type} (self : ZodLocalStorage U T)
    (jpU : String → Except JsError U) (st : LocalStorage) (calls : Nat) :
    (self.remove st).1 = Except.ok ()
    ∧ ((self.remove st).2).data self.key = none
    ∧ (∀ k, k ≠ self.key → ((self.remove st).2).data k = st.data k)
    ∧ (st.data self.key = none → ((self.remove st).2).data = st.data)
    ∧ (self.get jpU (self.remove st).2 calls).1
        = self.getDefaultValue calls := by
  refine ⟨rfl, ?_, ?_, ?_, ?_⟩
  · simp [ZodLocalStorage.remove, LocalStorage.removeItem]
  · intro k hk
    simp [ZodLocalStorage.remove, LocalStorage.removeItem, hk]
  · intro h
    funext q
    by_cases hq : q = self.key
    · subst hq
      simp [ZodLocalStorage.remove, LocalStorage.removeItem, h]
    · simp [ZodLocalStorage.remove, LocalStorage.removeItem, hq]
  · cases hre : st.readError with
    | some e =>
      have hre2 : ((self.remove st).2).readError = some e := hre
      rw [zod_get_read_error self jpU (self.remove st).2 calls e hre2]
    | none =>
      have hre2 : ((self.remove st).2).readError = none := hre
      have habs : ((self.remove st).2).data self.key = none := by
        simp [ZodLocalStorage.remove, LocalStorage.removeItem]
      rw [zod_get_absent self jpU (self.remove st).2 calls hre2 habs]

/-- Witness for C7: removing the only entry empties the key, removal on
an empty storage is a data no-op, and get after remove yields the fresh
default. -/
theorem zod_remove_then_get_witness :
    ((zStore.remove (singletonStorage "k" "42")).2).data "k" = none
    ∧ ((zStore.remove emptyStorage).2).data = emptyStorage.data
    ∧ (zStore.get natFromJson
        (zStore.remove (singletonStorage "k" "42")).2 0).1 = 100 := by
  refine ⟨?_, ?_, ?_⟩
  · exact (zod_remove_then_get zStore natFromJson
      (singletonStorage "k" "42") 0).2.1
  · exact (zod_remove_then_get zStore natFromJson emptyStorage 0).2.2.2.1 rfl
  · exact (zod_remove_then_get zStore natFromJson
      (singletonStorage "k" "42") 0).2.2.2.2

/-- C8: for both stores, a stored text that does not deserialize (or, for
the validated variant, validate) to `T` is treated exactly as an absent
entry: `get()` returns the default value, the same result it returns on
the storage with the entry removed (for the validated variant, also the
same producer-invocation count). -/
theorem invalid_text_treated_as_absent {U T : Type}
    (selfT : TypedLocalStorage T) (selfZ : ZodLocalStorage U T)
    (jp : String → Except JsError T) (jpU : String → Except JsError U)
    (st : LocalStorage) (calls : Nat) :
    (∀ s e, st.readError = none → st.data selfT.key = some s → s ≠ "" →
      jp s = Except.error e →
      (selfT.get jp st).1 = selfT.defaultValue
      ∧ (selfT.get jp st).1
          = (selfT.get jp (st.removeItem selfT.key).2).1)
    ∧ (∀ s e, st.readError = none → st.data selfZ.key = some s → s ≠ "" →
      jpU s = Except.error e →
      (selfZ.get jpU st calls).1 = selfZ.getDefaultValue calls
      ∧ (selfZ.get jpU st calls).1
          = (selfZ.get jpU (st.removeItem selfZ.key).2 calls).1
      ∧ (selfZ.get jpU st calls).2.2
          = (selfZ.get jpU (st.removeItem selfZ.key).2 calls).2.2)
    ∧ (∀ s u e, st.readError = none → st.data selfZ.key = some s → s ≠ "" →
      jpU s = Except.ok u → selfZ.schemaParse u = Except.error e →
      (selfZ.get jpU st calls).1 = selfZ.getDefaultValue calls
      ∧ (selfZ.get jpU st calls).1
          = (selfZ.get jpU (st.removeItem selfZ.key).2 calls).1
      ∧ (selfZ.get jpU st calls).2.2
          = (selfZ.get jpU (st.removeItem selfZ.key).2 calls).2.2) := by
  have habsT : ((st.removeItem selfT.key).2).data selfT.key = none := by
    simp [LocalStorage.removeItem]
  have habsZ : ((st.removeItem selfZ.key).2).data selfZ.key = none := by
    simp [LocalStorage.removeItem]
  refine ⟨?_, ?_, ?_⟩
  · intro s e hre hd hs hp
    rw [typed_get_parse_error selfT jp st s e hre hd hs hp,
      typed_get_absent selfT jp (st.removeItem selfT.key).2 hre habsT]
    exact ⟨rfl, rfl⟩
  · intro s e hre hd hs hp
    rw [zod_get_parse_error selfZ jpU st calls s e hre hd hs hp,
      zod_get_absent selfZ jpU (st.removeItem selfZ.key).2 calls hre habsZ]
    exact ⟨rfl, rfl, rfl⟩
  · intro s u e hre hd hs hp hv
    rw [zod_get_schema_error selfZ jpU st calls s u e hre hd hs hp hv,
      zod_get_absent selfZ jpU (st.removeItem selfZ.key).2 calls hre habsZ]
    exact ⟨rfl, rfl, rfl⟩

/-- Witness for C8: malformed text on the typed store and a
schema-rejected value on the validated store behave like an absent
entry. -/
theorem invalid_text_treated_as_absent_witness :
    ((tStore.get natFromJson (singletonStorage "k" "oops")).1 = 0
      ∧ (tStore.get natFromJson (singletonStorage "k" "oops")).1
          = (tStore.get natFromJson
              ((singletonStorage "k" "oops").removeItem "k").2).1)
    ∧ (zStore.get natFromJson (singletonStorage "k" "42") 0).1 = 100 := by
  refine ⟨?_, ?_⟩
  · exact (invalid_text_treated_as_absent tStore zStore natFromJson
      natFromJson (singletonStorage "k" "oops") 0).1 "oops" parseErr rfl
      (by decide) (by decide) rfl
  · exact ((invalid_text_treated_as_absent tStore zStore natFromJson
      natFromJson (singletonStorage "k" "42") 0).2.2 "42" 42 zodErr rfl
      (by decide) (by decide) rfl rfl).1

/-- C10: when the key is present but maps to the empty string, the JS
truthiness test on the read item is false (as it is for `null`), so
`get()` on either store returns the default value. -/
theorem empty_string_entry_returns_default {U T : Type}
    (selfT : TypedLocalStorage T) (selfZ : ZodLocalStorage U T)
    (jp : String → Except JsError T) (jpU : String → Except JsError U)
    (st : LocalStorage) (calls : Nat) (hre : st.readError = none)
    (hT : st.data selfT.key = some "") (hZ : st.data selfZ.key = some "") :
    (selfT.get jp st).1 = selfT.defaultValue
    ∧ (selfZ.get jpU st calls).1 = selfZ.getDefaultValue calls := by
  constructor
  · rw [typed_get_empty selfT jp st hre hT]
  · rw [zod_get_empty selfZ jpU st calls hre hZ]

/-- Witness for C10: a stored empty string yields both defaults. -/
theorem empty_string_entry_returns_default_witness :
    (tStore.get natFromJson (singletonStorage "k" "")).1 = 0
    ∧ (zStore.get natFromJson (singletonStorage "k" "") 0).1 = 100 :=
  empty_string_entry_returns_default tStore zStore natFromJson natFromJson
    (singletonStorage "k" "") 0 rfl (by decide) (by decide)
